import Mathlib

/-!
Verification of the twintag SDK transport core (`src/sdk/client.ts`,
`src/sdk/environment.ts`, `src/sdk/sdk.ts`, `src/sdk/error.model.ts`).

Embedding conventions:
* JavaScript runtime values that flow through untyped positions are modelled by
  the inductive `Json`; `undefined` is modelled by `Option.none` at positions
  where the source may hold `undefined`.
* The platform `fetch` call and every exception raised inside the `try` block
  before a response is obtained are modelled by an input of type
  `Except String Response`: `Except.error e` stands for a failure whose JS
  string form is `e`.
* A platform `Response` object is modelled by its observable API: its `status`,
  `statusText`, its raw body byte stream (`Option (List Nat)`, `none` for a
  `null` body), and the outcome of calling `response.json()` once
  (`Except String Json`, `Except.error e` when `json()` throws an error whose
  string form is `e`).
* `console.log` output and the per-call `start` timestamp are not modelled;
  logging functions are modelled only through their returned values (the teed
  body branch of `logRequest`), which is all the stated properties depend on.
* The process-wide log level (`environment._logLevel`) is passed explicitly
  where the source reads the global.
-/

namespace Twintag

/-- JSON values, doubling as the model of untyped JavaScript values reachable
in the transport core. -/
inductive Json where
  | null
  | bool (b : Bool)
  | num (n : Int)
  | str (s : String)
  | arr (elems : List Json)
  | obj (fields : List (String × Json))

/-- JavaScript truthiness of a `Json` value. -/
def Json.truthy : Json → Bool
  | Json.null => false
  | Json.bool b => b
  | Json.num n => n != 0
  | Json.str s => s != ""
  | Json.arr _ => true
  | Json.obj _ => true

/-- Truthiness of a possibly-`undefined` value (`none` is `undefined`, falsy). -/
def jsTruthy : Option Json → Bool
  | some v => v.truthy
  | Option.none => false

/-- JavaScript property read `v.k`: a lookup on plain objects; reads of a named
property on arrays and primitives reachable here yield `undefined` (`none`). -/
def Json.getProp : Json → String → Option Json
  | Json.obj fs, k => (fs.find? (fun p => p.1 = k)).map (fun p => p.2)
  | _, _ => Option.none

/-- JavaScript `v.length`: array length, string length, or the `length`
property of a plain object; `undefined` otherwise. -/
def Json.lengthOf : Json → Option Json
  | Json.arr xs => some (Json.num (xs.length : Int))
  | Json.str s => some (Json.num (s.length : Int))
  | Json.obj fs => (Json.obj fs).getProp "length"
  | _ => Option.none

/-- JavaScript `v[0]`: first array element, first character of a string, or the
`"0"` property of a plain object; `undefined` otherwise. -/
def Json.index0 : Json → Option Json
  | Json.arr (x :: _) => some x
  | Json.str s => (s.data.head?).map (fun c => Json.str (String.mk [c]))
  | Json.obj fs => ((Json.obj fs).getProp "0")
  | _ => Option.none

/-- Whether `v.null` holds, used below to mirror `Array.prototype.join`, which
renders `null` elements as the empty string. -/
def Json.isNull : Json → Bool
  | Json.null => true
  | _ => false

mutual

/-- JavaScript `String(v)` conversion for the values reachable here: strings
are themselves, `null`/booleans/numbers print canonically, plain objects print
as `[object Object]`, and arrays join the conversions of their elements with
`,` (with `null` elements rendered empty, as `Array.prototype.join` does). -/
def Json.jsToString : Json → String
  | Json.null => "null"
  | Json.bool b => cond b "true" "false"
  | Json.num n => toString n
  | Json.str s => s
  | Json.obj _ => "[object Object]"
  | Json.arr xs => String.intercalate "," (Json.jsToStringElems xs)

/-- Conversions of the elements of an array, for `Array.prototype.join`. -/
def Json.jsToStringElems : List Json → List String
  | [] => []
  | x :: xs => (if Json.isNull x then "" else Json.jsToString x) :: Json.jsToStringElems xs

end

/-- Header lists. Lookup is case-insensitive, as for the platform `Headers`
class; appended entries keep their given casing. -/
abbrev Headers := List (String × String)

def Headers.append (h : Headers) (name value : String) : Headers :=
  h ++ [(name, value)]

/-- ASCII lower-casing, character by character (header names are ASCII). -/
def lowerAscii (s : String) : String :=
  String.mk (s.data.map Char.toLower)

/-- ASCII upper-casing, character by character (method names are ASCII). -/
def upperAscii (s : String) : String :=
  String.mk (s.data.map Char.toUpper)

/-- `Headers.get`: `null` (`none`) when absent; the values of all entries with
the given name (case-insensitively) joined with a comma otherwise. -/
def Headers.get (h : Headers) (name : String) : Option String :=
  match h.filter (fun p => lowerAscii p.1 = lowerAscii name) with
  | [] => Option.none
  | vs => some (String.intercalate ", " (vs.map (fun p => p.2)))

/-- A request/args body. `jsonText v` stands for the string produced by the
platform `JSON.stringify(v)`, kept symbolic; `JSON.stringify` of any defined
JSON value is a non-empty string, hence truthy. -/
inductive BodyInit where
  | str (s : String)
  | stream (bytes : List Nat)
  | jsonText (v : Json)

def BodyInit.truthy : BodyInit → Bool
  | BodyInit.str s => s != ""
  | BodyInit.stream _ => true
  | BodyInit.jsonText _ => true

/-- Truthiness of `args.body` (`none` is unset/`undefined`, falsy). -/
def bodyTruthy : Option BodyInit → Bool
  | some b => b.truthy
  | Option.none => false

/-- The `RequestInit` options object: `method`, `headers`, `body`. -/
structure RequestInit where
  method : Option String
  headers : Headers
  body : Option BodyInit

def RequestInit.empty : RequestInit :=
  { method := Option.none, headers := ([] : Headers), body := Option.none }

/-- The platform `Request` constructor byte-uppercases a method that matches
one of the standard methods case-insensitively (fetch spec "normalize method");
`delete` therefore becomes `DELETE`. -/
def normalizeMethod (m : String) : String :=
  if upperAscii m ∈ ["DELETE", "GET", "HEAD", "OPTIONS", "POST", "PUT"] then upperAscii m else m

structure Request where
  method : String
  url : String
  headers : Headers
  body : Option BodyInit

/-- `new Request(path, args)`: default method is `GET`, method is normalized,
headers and body are taken from the options. -/
def mkRequest (path : String) (args : RequestInit) : Request :=
  { method := normalizeMethod (args.method.getD "GET")
  , url := path
  , headers := args.headers
  , body := args.body }

/-- The four log levels of `environment._logLevel`. -/
inductive LogLevel where
  | none
  | single
  | headers
  | body
deriving DecidableEq

/-- The mutable part of the `Environment` singleton that the transport core
reads; the host-related fields are not modelled (no stated property concerns
them). -/
structure Environment where
  _logLevel : LogLevel

/-- Reading `environment.logLevel`: the `Environment` class declares only a
`set logLevel` accessor and no getter, so a property read evaluates to
`undefined` (`none`) regardless of the stored `_logLevel`. -/
def Environment.logLevelRead (_e : Environment) : Option LogLevel :=
  Option.none

/-- The `set logLevel` accessor: stores into `_logLevel`. -/
def Environment.logLevelWrite (e : Environment) (l : LogLevel) : Environment :=
  { e with _logLevel := l }

/-- `setLogLevel` from `src/sdk/sdk.ts`: reads the previous value via the
(getter-less) `logLevel` property, writes the new level, and returns
`prev === undefined ? 'none' : prev`. Returns the pair
(returned value, updated environment). -/
def setLogLevel (e : Environment) (logLevel : LogLevel) : LogLevel × Environment :=
  let prev := e.logLevelRead
  let e' := e.logLevelWrite logLevel
  (match prev with
   | some p => p
   | Option.none => LogLevel.none, e')

/-- Modelled from the spec: `src/version.ts` is not present in the source
tree; the spec only says requests carry "the SDK's version string" in
`X-Client-Version`. Its concrete value is irrelevant to every property proved
here. -/
def VERSION : String := "sdk-version"

/-- A structured error entry (`src/sdk/error.model.ts`), fields defaulting to
`0`/`""`/`""` in the class initializers. -/
structure TwintagErrorValue where
  status : Int
  title : String
  detail : String

/-- The JS object value of a `TwintagErrorValue` instance, as seen when it is
passed through an untyped position. -/
def TwintagErrorValue.toJson (v : TwintagErrorValue) : Json :=
  Json.obj [("status", Json.num v.status), ("title", Json.str v.title), ("detail", Json.str v.detail)]

/-- The `TwintagError` wrapper (`src/sdk/error.model.ts`). `message` is the
string stored by the `Error` base constructor; `name` and `errors` hold
whatever JS values the constructor stored (the source annotates `errors` as
`TwintagErrorValue[]` but its call sites pass other shapes, so the field is
modelled untyped). -/
structure TwintagError where
  message : String
  name : Json
  stack : Option String
  errors : Json

/-- The `TwintagError` constructor: `super(message)` stores `String(message)`
(or `""` when `message` is `undefined`); `this.name = name || ''`;
`this.stack = stack`; `this.errors = errors || []`. -/
def TwintagError.make (message errors name : Option Json) (stack : Option String) : TwintagError :=
  { message :=
      match message with
      | some m => m.jsToString
      | Option.none => ""
  , name :=
      match name with
      | some n => if n.truthy then n else Json.str ""
      | Option.none => Json.str ""
  , stack := stack
  , errors :=
      match errors with
      | some e => if e.truthy then e else Json.arr []
      | Option.none => Json.arr [] }

/-- JavaScript `v.length > 0` for the JSON values reachable here: true exactly
when `v.length` is a positive number. -/
def jsLengthGtZero (v : Json) : Bool :=
  match v.lengthOf with
  | some (Json.num n) => decide (0 < n)
  | _ => false

/-- The guard `err && err.errors && err.errors.length > 0` of
`Client.CreateTwintagError`. -/
def usableErrors (err : Json) : Bool :=
  err.truthy &&
    (match err.getProp "errors" with
     | some errs => errs.truthy && jsLengthGtZero errs
     | Option.none => false)

/-- `Client.CreateTwintagError` (`src/sdk/client.ts` lines 259-264): when the
argument has a truthy `errors` property of positive length, build the wrapper
from `err.errors[0]` (note: the single entry, not a list, is stored into
`errors`); otherwise the generic fallback
`new TwintagError("Failed to perform the request", err, "Twintag Error")`. -/
def Client.CreateTwintagError (err : Json) : TwintagError :=
  if usableErrors err then
    let e0 := (err.getProp "errors").bind Json.index0
    TwintagError.make (e0.bind (fun x => x.getProp "detail")) e0
      (e0.bind (fun x => x.getProp "title")) Option.none
  else
    TwintagError.make (some (Json.str "Failed to perform the request")) (some err)
      (some (Json.str "Twintag Error")) Option.none

/-- The platform `Response`, modelled by its observable API (see the file
header): `ok` is derived from `status`; `jsonResult` is the outcome of
`response.json()`. -/
structure Response where
  status : Nat
  statusText : String
  body : Option (List Nat)
  jsonResult : Except String Json

/-- `response.ok`: status in the range 200-299. -/
def Response.ok (r : Response) : Bool :=
  decide (200 ≤ r.status) && decide (r.status ≤ 299)

/-- The transport client; only the token field carries state relevant to the
stated properties (the shared `start` timestamp feeds logging output only). -/
structure Client where
  token : Option String

/-- `found !== null` where `found` is the result of `Array.prototype.find`:
`find` returns a matching element or `undefined`, never `null`, and both a
string and `undefined` are strictly unequal (`!==`) to `null` — so this
comparison is true in both cases. -/
def jsStrictNeNull : Option String → Bool
  | some _ => true
  | Option.none => true

/-- `Client.hasLoggableRequestBody` (`src/sdk/client.ts` lines 18-29): false
without a body or a truthy `Content-Type`; otherwise tests the allow-list
lookup result with `found !== null` (see `jsStrictNeNull`). -/
def Client.hasLoggableRequestBody (req : Request) : Bool :=
  match req.body with
  | Option.none => false
  | some _ =>
    match req.headers.get "Content-Type" with
    | some contentType =>
      if contentType != "" then
        let types := ["application/json", "application/graphql", "application/graphql+json"]
        let found := types.find? (fun t => t = contentType)
        jsStrictNeNull found
      else false
    | Option.none => false

/-- `Client.logRequest` (`src/sdk/client.ts` lines 48-70), modelled through
its return value: below level `body` (or when the body is not loggable) it
returns `null`; at level `body` with a loggable body it tees the request body
stream, logs one branch and returns the other. A teed branch carries the same
bytes as the original stream, so it is modelled by the body itself. -/
def Client.logRequest (level : LogLevel) (req : Request) : Option BodyInit :=
  match level with
  | LogLevel.none => Option.none
  | LogLevel.single => Option.none
  | LogLevel.headers => Option.none
  | LogLevel.body =>
    if Client.hasLoggableRequestBody req then
      req.body
    else
      Option.none

/-- The payload slot of `Client.do`'s result: the empty/zero value `<T>{}`,
the live (undecoded) response body stream, or a decoded JSON value. -/
inductive Payload where
  | zero
  | stream (bytes : List Nat)
  | json (v : Json)

/-- The outcome of `Client.do`: either an exception propagated to the caller
(`thrown`) or the returned pair `[payload, error]`. -/
inductive DoResult where
  | thrown (e : String)
  | ok (payload : Payload) (err : Option TwintagError)

/-- Lines 133-143 of `Client.do`: inject `Authorization: Bearer <token>` when
the token is truthy and `skipAuth` is falsy, then unconditionally append the
client-identification headers. -/
def Client.prepare (c : Client) (args : RequestInit) (skipAuth : Bool) : RequestInit :=
  let args :=
    match c.token with
    | some t =>
      if (t != "") && !skipAuth then
        { args with headers := args.headers.append "Authorization" ("Bearer " ++ t) }
      else args
    | Option.none => args
  { args with
    headers := (args.headers.append "X-Client-Name" "twintag.js").append "X-Client-Version" VERSION }

/-- `Client.do` (`src/sdk/client.ts` lines 122-194). `fetchResult` models the
`fetch` call together with every failure raised inside the `try` before a
response is obtained; such failures reach the outer `catch`, which logs and
rethrows. On a non-ok response, `response.json()` is called with no local
handler, so a decode failure there also propagates through the outer `catch`
as a rethrow. On an ok response: raw passthrough under `skipParse`, otherwise
a JSON decode whose failure is normalized into a structured error. The teed
logging branch assigned back into `args.body` by the source is dead with
respect to the result (the network call uses `request`), and is bound here
without further use. -/
def Client.doOp (c : Client) (level : LogLevel) (path : String) (args : RequestInit)
    (skipParse skipAuth : Bool) (fetchResult : Except String Response) : DoResult :=
  let args := c.prepare args skipAuth
  let request := mkRequest path args
  let _stream := Client.logRequest level request
  match fetchResult with
  | Except.error e => DoResult.thrown e
  | Except.ok response =>
    if !response.ok then
      match response.jsonResult with
      | Except.error e => DoResult.thrown e
      | Except.ok json => DoResult.ok Payload.zero (some (Client.CreateTwintagError json))
    else if skipParse then
      match response.body with
      | Option.none => DoResult.ok Payload.zero Option.none
      | some b => DoResult.ok (Payload.stream b) Option.none
    else
      match response.jsonResult with
      | Except.ok json => DoResult.ok (Payload.json json) Option.none
      | Except.error e =>
        let errv : TwintagErrorValue :=
          { status := 0
          , title := "failed to parse response"
          , detail := "something went wrong when parsing response; " ++ e }
        DoResult.ok Payload.zero (some (Client.CreateTwintagError (Json.arr [errv.toJson])))

/-- The args mutation of `Client.get`: default `{}`, then `method = "GET"`. -/
def Client.getArgs (args : Option RequestInit) : RequestInit :=
  let a := args.getD RequestInit.empty
  { a with method := some "GET" }

/-- `Client.get`: `do(path, args, false, skipAuth)`. -/
def Client.getOp (c : Client) (level : LogLevel) (path : String) (args : Option RequestInit)
    (skipAuth : Bool) (fetchResult : Except String Response) : DoResult :=
  c.doOp level path (Client.getArgs args) false skipAuth fetchResult

/-- The shared body handling of `put`/`post`/`delete`:
`if (!args.body && body) args.body = JSON.stringify(body)`. -/
def serializeBodyIfUnset (a : RequestInit) (body : Option Json) : RequestInit :=
  if !(bodyTruthy a.body) && jsTruthy body then
    { a with body := body.map BodyInit.jsonText }
  else a

/-- The args mutation of `Client.put`: default `{}`, `method = "PUT"`, then the
shared body handling. -/
def Client.putArgs (body : Option Json) (args : Option RequestInit) : RequestInit :=
  let a := args.getD RequestInit.empty
  serializeBodyIfUnset { a with method := some "PUT" } body

/-- `Client.put`: `do(path, args, false, skipAuth)`. -/
def Client.putOp (c : Client) (level : LogLevel) (path : String) (body : Option Json)
    (args : Option RequestInit) (skipAuth : Bool) (fetchResult : Except String Response) : DoResult :=
  c.doOp level path (Client.putArgs body args) false skipAuth fetchResult

/-- The args mutation of `Client.post`: default `{}`, `method = "POST"`, then
the shared body handling. -/
def Client.postArgs (body : Option Json) (args : Option RequestInit) : RequestInit :=
  let a := args.getD RequestInit.empty
  serializeBodyIfUnset { a with method := some "POST" } body

/-- `Client.post`: `do(path, args, false, skipAuth)`. -/
def Client.postOp (c : Client) (level : LogLevel) (path : String) (body : Option Json)
    (args : Option RequestInit) (skipAuth : Bool) (fetchResult : Except String Response) : DoResult :=
  c.doOp level path (Client.postArgs body args) false skipAuth fetchResult

/-- The args mutation of `Client.delete`: default `{}`, `method = 'delete'`
(lower-case in the source; the `Request` constructor normalizes it to
`DELETE`), then the shared body handling. -/
def Client.deleteArgs (body : Option Json) (args : Option RequestInit) : RequestInit :=
  let a := args.getD RequestInit.empty
  serializeBodyIfUnset { a with method := some "delete" } body

/-- `Client.delete`: `do(path, args, true)` — `skipParse` is `true` and
`skipAuth` is left `undefined` (falsy). -/
def Client.deleteOp (c : Client) (level : LogLevel) (path : String) (body : Option Json)
    (args : Option RequestInit) (fetchResult : Except String Response) : DoResult :=
  c.doOp level path (Client.deleteArgs body args) true false fetchResult

/-! Concrete sample inputs used by the evaluation theorems and witnesses. -/

/-- The server error entry of the spec's P4 scenario. -/
def errEntryJson : Json :=
  Json.obj [("status", Json.num 422), ("title", Json.str "Bad"), ("detail", Json.str "field X invalid")]

/-- A 422 response whose body decodes to the one-entry error array of P4. -/
def rsp422 : Response :=
  { status := 422
  , statusText := "Unprocessable Entity"
  , body := some [91]
  , jsonResult := Except.ok (Json.arr [errEntryJson]) }

/-- A 500 response with a body that `response.json()` cannot decode. -/
def rsp500Malformed : Response :=
  { status := 500
  , statusText := "Internal Server Error"
  , body := some [60]
  , jsonResult := Except.error "SyntaxError: Unexpected end of JSON input" }

/-- A 500 response whose body decodes to a JSON object with no usable
`errors` property. -/
def rsp500Obj : Response :=
  { status := 500
  , statusText := "Internal Server Error"
  , body := some [123, 125]
  , jsonResult := Except.ok (Json.obj []) }

/-- A 200 response whose body is not valid JSON. -/
def rspBadJson : Response :=
  { status := 200
  , statusText := "OK"
  , body := some [104]
  , jsonResult := Except.error "SyntaxError: Unexpected token h in JSON" }

/-- A 204-style ok response with no body. -/
def rspNoBody : Response :=
  { status := 204
  , statusText := "No Content"
  , body := Option.none
  , jsonResult := Except.error "SyntaxError: Unexpected end of JSON input" }

/-- A 200 response with body bytes `[7, 8]`. -/
def rspBytes : Response :=
  { status := 200
  , statusText := "OK"
  , body := some [7, 8]
  , jsonResult := Except.error "SyntaxError: not json" }

/-- A request with a body whose `Content-Type` is `text/plain`, i.e. not on
the JSON allow-list of `hasLoggableRequestBody`. -/
def reqTextPlain : Request :=
  { method := "POST"
  , url := "/x"
  , headers := [("Content-Type", "text/plain")]
  , body := some (BodyInit.str "hello") }

/-! Claim theorems. -/

/-- Claim C1 (code evaluation at the failing input): for the 422 response with
body `[{"status":422,"title":"Bad","detail":"field X invalid"}]`, `do` returns
the zero payload with a wrapping error whose message is the generic fallback
`"Failed to perform the request"` — not the entry's detail as the claim
states — because `CreateTwintagError` looks for an `errors` property that a
JSON array does not have. The underlying entries list does have length 1. -/
theorem claim_C1_error_detail_eval :
    Client.doOp { token := Option.none } LogLevel.none "/x" RequestInit.empty false false
        (Except.ok rsp422)
      = DoResult.ok Payload.zero (some (Client.CreateTwintagError (Json.arr [errEntryJson])))
    ∧ (Client.CreateTwintagError (Json.arr [errEntryJson])).message = "Failed to perform the request"
    ∧ (Client.CreateTwintagError (Json.arr [errEntryJson])).message ≠ "field X invalid"
    ∧ Json.lengthOf (Client.CreateTwintagError (Json.arr [errEntryJson])).errors = some (Json.num 1) :=
  ⟨rfl, rfl, by decide, rfl⟩

/-- Claim C2 (counterexample): at a 500 response whose body is malformed (not
decodable as JSON), `do` does raise: `response.json()` throws and the outer
catch rethrows, so the result is a propagated exception, not a returned
generic-fallback error as the claim states. -/
theorem claim_C2_fallback_counterexample :
    Client.doOp { token := Option.none } LogLevel.none "/x" RequestInit.empty false false
        (Except.ok rsp500Malformed)
      = DoResult.thrown "SyntaxError: Unexpected end of JSON input" :=
  rfl

/-- Claim C2 (amended): for every non-2xx response, (a) if the body decodes as
JSON to a value failing the `err && err.errors && err.errors.length > 0` guard,
`do` returns the zero payload with the generic fallback error, whose message is
the fixed string `"Failed to perform the request"` (not empty, no exception);
(b) if the body is empty or not decodable as JSON, the decode exception is
rethrown to the caller. -/
theorem claim_C2_amended_fallback (c : Client) (level : LogLevel) (path : String)
    (args : RequestInit) (skipParse skipAuth : Bool) (r : Response)
    (hnok : r.ok = false) :
    (∀ v, r.jsonResult = Except.ok v → usableErrors v = false →
      c.doOp level path args skipParse skipAuth (Except.ok r)
          = DoResult.ok Payload.zero (some (Client.CreateTwintagError v))
        ∧ Client.CreateTwintagError v
            = TwintagError.make (some (Json.str "Failed to perform the request")) (some v)
                (some (Json.str "Twintag Error")) Option.none
        ∧ (Client.CreateTwintagError v).message = "Failed to perform the request")
    ∧ (∀ e, r.jsonResult = Except.error e →
        c.doOp level path args skipParse skipAuth (Except.ok r) = DoResult.thrown e) := by
  constructor
  · intro v hv hguard
    have hmk : Client.CreateTwintagError v
        = TwintagError.make (some (Json.str "Failed to perform the request")) (some v)
            (some (Json.str "Twintag Error")) Option.none := by
      simp [Client.CreateTwintagError, hguard]
    refine ⟨?_, hmk, ?_⟩
    · simp [Client.doOp, hnok, hv]
    · rw [hmk]
      simp [TwintagError.make, Json.jsToString]
  · intro e he
    simp [Client.doOp, hnok, he]

/-- Claim C2 (witness for the amended claim): a 500 response whose body
decodes to `{}` yields the returned generic fallback error. -/
theorem claim_C2_witness :
    Client.doOp { token := Option.none } LogLevel.none "/x" RequestInit.empty false false
        (Except.ok rsp500Obj)
      = DoResult.ok Payload.zero (some (Client.CreateTwintagError (Json.obj [])))
    ∧ (Client.CreateTwintagError (Json.obj [])).message = "Failed to perform the request" := by
  have h := (claim_C2_amended_fallback { token := Option.none } LogLevel.none "/x"
      RequestInit.empty false false rsp500Obj rfl).1 (Json.obj []) rfl rfl
  exact ⟨h.1, h.2.2⟩

/-- Claim C3 (code evaluation at the failing input): `"text/plain"` is not on
the allow-list, yet `hasLoggableRequestBody` returns `true` for a request with
a body of that content type (the source compares the `find` result against
`null`, but `find` returns `undefined` when nothing matches), so at level
`body` the request body is teed. Below level `body` no tee happens, as the
claim states. -/
theorem claim_C3_allowlist_eval :
    (["application/json", "application/graphql", "application/graphql+json"].find?
        (fun t => t = "text/plain")) = Option.none
    ∧ Client.hasLoggableRequestBody reqTextPlain = true
    ∧ Client.logRequest LogLevel.body reqTextPlain = some (BodyInit.str "hello")
    ∧ Client.logRequest LogLevel.headers reqTextPlain = Option.none
    ∧ Client.logRequest LogLevel.single reqTextPlain = Option.none
    ∧ Client.logRequest LogLevel.none reqTextPlain = Option.none :=
  ⟨rfl, rfl, rfl, rfl, rfl, rfl⟩

/-- Claim C4 (code evaluation at the failing input): with the level currently
`body`, calling the log-level setter with `single` does set the level to
`single` but returns `none` rather than the previous value `body`, because the
`Environment` class has no `logLevel` getter, so `environment.logLevel` reads
`undefined`. Save-and-restore through the returned value is impossible. -/
theorem claim_C4_setloglevel_eval :
    setLogLevel { _logLevel := LogLevel.body } LogLevel.single
      = (LogLevel.none, { _logLevel := LogLevel.single })
    ∧ LogLevel.none ≠ LogLevel.body :=
  ⟨rfl, by decide⟩

/-- Claim C5: the request constructed by `do` (that is,
`mkRequest path (c.prepare args skipAuth)`) carries
`Authorization: Bearer <token>` whenever a (non-empty) token is configured and
`skipAuth` is false, and carries the `X-Client-Name` and `X-Client-Version`
client-identification headers for every call, regardless of `skipAuth`. -/
theorem claim_C5_header_invariants (c : Client) (args : RequestInit) (skipAuth : Bool)
    (path : String) :
    (∀ t, c.token = some t → t ≠ "" → skipAuth = false →
      ("Authorization", "Bearer " ++ t) ∈ (mkRequest path (c.prepare args skipAuth)).headers)
    ∧ ("X-Client-Name", "twintag.js") ∈ (mkRequest path (c.prepare args skipAuth)).headers
    ∧ ("X-Client-Version", VERSION) ∈ (mkRequest path (c.prepare args skipAuth)).headers := by
  refine ⟨?_, ?_, ?_⟩
  · intro t ht hne hskip
    simp [Client.prepare, mkRequest, Headers.append, ht, hskip, bne_iff_ne, hne]
  · simp only [Client.prepare, mkRequest, Headers.append]
    simp [List.mem_append]
  · simp only [Client.prepare, mkRequest, Headers.append]
    simp [List.mem_append]

/-- Claim C5 (witness): with token `"abc"` and `skipAuth = false`, the
constructed request carries all three headers. -/
theorem claim_C5_witness :
    ("Authorization", "Bearer " ++ "abc")
        ∈ (mkRequest "/x" (Client.prepare { token := some "abc" } RequestInit.empty false)).headers
    ∧ ("X-Client-Name", "twintag.js")
        ∈ (mkRequest "/x" (Client.prepare { token := some "abc" } RequestInit.empty false)).headers
    ∧ ("X-Client-Version", VERSION)
        ∈ (mkRequest "/x" (Client.prepare { token := some "abc" } RequestInit.empty false)).headers := by
  have h := claim_C5_header_invariants { token := some "abc" } RequestInit.empty false "/x"
  exact ⟨h.1 "abc" rfl (by decide) rfl, h.2.1, h.2.2⟩

/-- Claim C6: for every ok-status response whose `json()` decode fails, a call
with `skipParse = false` returns (zero payload, error) without throwing; the
error is non-none and its entries hold exactly one structured entry with the
fixed title `"failed to parse response"` and a detail string embedding the
underlying decode error. -/
theorem claim_C6_parse_failure_normalized (c : Client) (level : LogLevel) (path : String)
    (args : RequestInit) (skipAuth : Bool) (r : Response) (e : String)
    (hok : r.ok = true) (hj : r.jsonResult = Except.error e) :
    ∃ E : TwintagError,
      c.doOp level path args false skipAuth (Except.ok r) = DoResult.ok Payload.zero (some E)
      ∧ E.errors = Json.arr [(TwintagErrorValue.mk 0 "failed to parse response"
          ("something went wrong when parsing response; " ++ e)).toJson] := by
  refine ⟨Client.CreateTwintagError (Json.arr [(TwintagErrorValue.mk 0 "failed to parse response"
      ("something went wrong when parsing response; " ++ e)).toJson]), ?_, ?_⟩
  · simp [Client.doOp, hok, hj]
  · simp [Client.CreateTwintagError, usableErrors, Json.getProp, Json.truthy, jsTruthy,
      TwintagError.make]

/-- Claim C6 (witness): a 200 response whose body is not valid JSON yields the
normalized parse-failure error. -/
theorem claim_C6_witness :
    ∃ E : TwintagError,
      Client.doOp { token := Option.none } LogLevel.none "/x" RequestInit.empty false false
          (Except.ok rspBadJson) = DoResult.ok Payload.zero (some E)
      ∧ E.errors = Json.arr [(TwintagErrorValue.mk 0 "failed to parse response"
          ("something went wrong when parsing response; "
            ++ "SyntaxError: Unexpected token h in JSON")).toJson] :=
  claim_C6_parse_failure_normalized { token := Option.none } LogLevel.none "/x"
    RequestInit.empty false rspBadJson "SyntaxError: Unexpected token h in JSON" rfl rfl

/-- Claim C7: for every ok-status response under `skipParse = true`, `do`
returns (zero payload, none) when the response has no body, and otherwise
returns the live body stream — the very bytes of the response body — with no
error and no JSON decoding attempted (the result does not depend on the
response's `json()` outcome). -/
theorem claim_C7_skipparse_passthrough (c : Client) (level : LogLevel) (path : String)
    (args : RequestInit) (skipAuth : Bool) (r : Response)
    (hok : r.ok = true) :
    (r.body = Option.none →
      c.doOp level path args true skipAuth (Except.ok r) = DoResult.ok Payload.zero Option.none)
    ∧ (∀ b, r.body = some b →
        c.doOp level path args true skipAuth (Except.ok r)
          = DoResult.ok (Payload.stream b) Option.none) := by
  constructor
  · intro hb
    simp [Client.doOp, hok, hb]
  · intro b hb
    simp [Client.doOp, hok, hb]

/-- Claim C7 (witness): a bodyless 204 response yields (zero, none); a 200
response with body bytes `[7, 8]` yields exactly those bytes as the stream
payload. -/
theorem claim_C7_witness :
    Client.doOp { token := Option.none } LogLevel.none "/x" RequestInit.empty true false
        (Except.ok rspNoBody) = DoResult.ok Payload.zero Option.none
    ∧ Client.doOp { token := Option.none } LogLevel.none "/x" RequestInit.empty true false
        (Except.ok rspBytes) = DoResult.ok (Payload.stream [7, 8]) Option.none := by
  have h1 := (claim_C7_skipparse_passthrough { token := Option.none } LogLevel.none "/x"
      RequestInit.empty false rspNoBody rfl).1 rfl
  have h2 := (claim_C7_skipparse_passthrough { token := Option.none } LogLevel.none "/x"
      RequestInit.empty false rspBytes rfl).2 [7, 8] rfl
  exact ⟨h1, h2⟩

/-- Claim C8: every failure raised before a response is obtained (the
`Except.error` outcome of the modelled fetch) is rethrown to the caller as-is;
it is never converted into a returned `(payload, error)` pair. -/
theorem claim_C8_network_rethrow (c : Client) (level : LogLevel) (path : String)
    (args : RequestInit) (skipParse skipAuth : Bool) (e : String) :
    c.doOp level path args skipParse skipAuth (Except.error e) = DoResult.thrown e :=
  rfl

/-- Claim C9: each convenience operation is a thin fixed-method wrapper over
`do`: `get` passes method GET and `skipParse = false`; `put`/`post` pass
method PUT/POST and `skipParse = false`, setting the body to the JSON
serialization of the supplied value exactly when no body is pre-set and the
value is truthy (no double serialization); `delete` has the same body
handling, passes `skipParse = true`, and its lower-case `'delete'` method
normalizes to DELETE in the constructed request. -/
theorem claim_C9_wrappers (c : Client) (level : LogLevel) (path : String)
    (body : Option Json) (args : Option RequestInit) (skipAuth : Bool)
    (fr : Except String Response) :
    (Client.getOp c level path args skipAuth fr
        = c.doOp level path (Client.getArgs args) false skipAuth fr)
    ∧ (Client.getArgs args).method = some "GET"
    ∧ (Client.putOp c level path body args skipAuth fr
        = c.doOp level path (Client.putArgs body args) false skipAuth fr)
    ∧ (Client.putArgs body args).method = some "PUT"
    ∧ (Client.putArgs body args).body
        = (if !(bodyTruthy (args.getD RequestInit.empty).body) && jsTruthy body
           then Option.map BodyInit.jsonText body
           else (args.getD RequestInit.empty).body)
    ∧ (Client.postOp c level path body args skipAuth fr
        = c.doOp level path (Client.postArgs body args) false skipAuth fr)
    ∧ (Client.postArgs body args).method = some "POST"
    ∧ (Client.postArgs body args).body
        = (if !(bodyTruthy (args.getD RequestInit.empty).body) && jsTruthy body
           then Option.map BodyInit.jsonText body
           else (args.getD RequestInit.empty).body)
    ∧ (Client.deleteOp c level path body args fr
        = c.doOp level path (Client.deleteArgs body args) true false fr)
    ∧ (mkRequest path (Client.deleteArgs body args)).method = "DELETE"
    ∧ (Client.deleteArgs body args).body
        = (if !(bodyTruthy (args.getD RequestInit.empty).body) && jsTruthy body
           then Option.map BodyInit.jsonText body
           else (args.getD RequestInit.empty).body) := by
  have hdm : (Client.deleteArgs body args).method = some "delete" := by
    simp only [Client.deleteArgs, serializeBodyIfUnset]
    split <;> rfl
  refine ⟨rfl, ?_, rfl, ?_, ?_, rfl, ?_, ?_, rfl, ?_, ?_⟩
  · rfl
  · simp only [Client.putArgs, serializeBodyIfUnset]
    split <;> rfl
  · simp only [Client.putArgs, serializeBodyIfUnset]
    split <;> simp_all
  · simp only [Client.postArgs, serializeBodyIfUnset]
    split <;> rfl
  · simp only [Client.postArgs, serializeBodyIfUnset]
    split <;> simp_all
  · simp [mkRequest, hdm]
    rfl
  · simp only [Client.deleteArgs, serializeBodyIfUnset]
    split <;> simp_all

/-- Claim C10: for `put`, `post` and `delete`, when no body is pre-set in the
args and the supplied body value is falsy (empty string, 0, false, null or
undefined), the serialization step is skipped and the constructed request
carries no body at all. -/
theorem claim_C10_falsy_body_skipped (body : Option Json) (args : Option RequestInit)
    (path : String)
    (hpre : (args.getD RequestInit.empty).body = Option.none)
    (hfalsy : jsTruthy body = false) :
    (Client.putArgs body args).body = Option.none
    ∧ (Client.postArgs body args).body = Option.none
    ∧ (Client.deleteArgs body args).body = Option.none
    ∧ (mkRequest path (Client.putArgs body args)).body = Option.none
    ∧ (mkRequest path (Client.postArgs body args)).body = Option.none
    ∧ (mkRequest path (Client.deleteArgs body args)).body = Option.none := by
  have hput : (Client.putArgs body args).body = Option.none := by
    simp [Client.putArgs, serializeBodyIfUnset, hpre, hfalsy]
  have hpost : (Client.postArgs body args).body = Option.none := by
    simp [Client.postArgs, serializeBodyIfUnset, hpre, hfalsy]
  have hdel : (Client.deleteArgs body args).body = Option.none := by
    simp [Client.deleteArgs, serializeBodyIfUnset, hpre, hfalsy]
  exact ⟨hput, hpost, hdel, hput, hpost, hdel⟩

/-- Claim C10 (witness): with the falsy body value `0` and no pre-set args,
no request body is produced for any of the three operations. -/
theorem claim_C10_witness :
    (Client.putArgs (some (Json.num 0)) Option.none).body = Option.none
    ∧ (Client.postArgs (some (Json.num 0)) Option.none).body = Option.none
    ∧ (Client.deleteArgs (some (Json.num 0)) Option.none).body = Option.none
    ∧ (mkRequest "/x" (Client.putArgs (some (Json.num 0)) Option.none)).body = Option.none
    ∧ (mkRequest "/x" (Client.postArgs (some (Json.num 0)) Option.none)).body = Option.none
    ∧ (mkRequest "/x" (Client.deleteArgs (some (Json.num 0)) Option.none)).body = Option.none :=
  claim_C10_falsy_body_skipped (some (Json.num 0)) Option.none "/x" rfl rfl

end Twintag
